import Mathlib

/-!
Verification of the `ding` network-health probe (`src/ding.py`) against its
natural-language specification.

The Python script is embedded shallowly: every OS / library collaborator
(`netifaces.gateways`, `subprocess.call` on the `ping` utility,
`dns.resolver.resolve`, `platform.system`, `psutil.net_if_stats`) is a field
of an explicit `Env` record, and every function of the script becomes a Lean
function of `Env`.  Side effects (prints, the interface-statistics dump, the
individual ping / DNS invocations) are recorded in an explicit effect trace.
A Python exception that escapes a function is an `Except.error`; `sys.exit`
and uncaught exceptions at top level become an `ExitStatus`.

One Python-semantics point matters for the dataclass `DingResult`: a field
default written as `field_name : T = expr` is evaluated exactly once, when
the `class` statement itself executes (module import), not at each
construction.  The embedding therefore separates `defineDingResultClass`
(module import: evaluates the three discovery defaults) from
`constructDingResult` (one `DingResult()` call: field initialisation from the
cached defaults followed by `__post_init__`).
-/

namespace Ding

/-- A Python exception that can escape the functions of the script. -/
inductive PyExn where
  | keyError            -- `dict[k]` with `k` absent
  | indexError          -- `list[0]` on an empty list
  | attributeError      -- attribute access on an object lacking it
  | dnsNXDOMAIN         -- dns.resolver.NXDOMAIN
  | dnsNoNameservers    -- dns.resolver.NoNameservers
  | dnsTimeout          -- dns.exception.Timeout / LifetimeTimeout
  | dnsNoAnswer         -- dns.resolver.NoAnswer
  | dnsOtherError       -- any other exception out of dns.resolver.resolve
  | noResolverConfigured -- NoResolverConfiguredError (spec section 4.4)
  deriving DecidableEq, Repr

/-- One observable side effect of the script, in program order. -/
inductive Effect where
  | gatewaysLookup                  -- a call to netifaces.gateways()
  | resolverConfigRead              -- reading the system resolver configuration
  | pingCall (cmd : List String)    -- one subprocess.call of the ping utility
  | dnsQuery (host : String)        -- one dns.resolver.resolve(host)
  | printLine (s : String)          -- print(...) to standard output
  | statsDump                       -- pprint(psutil.net_if_stats())
  deriving DecidableEq, Repr

/-- Outcome of one `dns.resolver.resolve(host)` call, as classified by the
`dnspython` library: either a valid answer, or one of its exceptions. -/
inductive ResolveOutcome where
  | answer          -- resolve() returns an answer object
  | nxdomain        -- raises NXDOMAIN: the query name does not exist
  | noNameservers   -- raises NoNameservers: all nameservers failed to answer
  | timeout         -- raises a lifetime-timeout: transport-level failure
  | noAnswer        -- raises NoAnswer: name exists but no record of the type
  | otherError      -- any other exception from the resolver library
  deriving DecidableEq, Repr

/-- The `default` entry of `netifaces.gateways()`: the IPv4 (`AF_INET`)
default route, when present, is the pair `(gateway address, interface name)`
— the script reads index `[0]` for the address and `[1]` for the name. -/
structure Gateways where
  defaultInet : Option (String × String)
  deriving DecidableEq, Repr

/-- The OS / library environment the script runs against. -/
structure Env where
  platformSystem : String                  -- platform.system()
  pingExit : List String → Nat             -- exit status of subprocess.call
  gateways : Gateways                      -- netifaces.gateways()
  resolverNameservers : List String        -- nameservers in the system config
  dnsResolve : String → ResolveOutcome     -- dns.resolver.resolve(host)
  netIfStatsText : String                  -- rendering of psutil.net_if_stats()

/-- Embedding of `get_default_route_interface_name` (src/ding.py:19-29):
returns the
interface name of the IPv4 default route; when there is none it prints two
diagnostic lines, dumps the interface statistics and calls
`sys.exit("No default gateway!")`.  The `sys.exit` message is surfaced as the
error value; the caller never resumes. -/
def get_default_route_interface_name (env : Env) :
    Except String String × List Effect :=
  match env.gateways.defaultInet with
  | some (_, iface) => (.ok iface, [.gatewaysLookup])
  | none =>
      (.error "No default gateway!",
       [.gatewaysLookup,
        .printLine "no default gateway, internet is probably broken",
        .printLine "network interfaces: ",
        .statsDump])

/-- Embedding of `get_default_gateway` (src/ding.py:37-40): reads
`netifaces.gateways()["default"][netifaces.AF_INET][0]` with no guard; when
the `default` dictionary has no `AF_INET` entry the bare subscript raises
`KeyError`, with no diagnostic printing and no statistics dump. -/
def get_default_gateway (env : Env) :
    Except PyExn String × List Effect :=
  match env.gateways.defaultInet with
  | some (addr, _) => (.ok addr, [.gatewaysLookup])
  | none => (.error .keyError, [.gatewaysLookup])

/-- The embedding of Python's `str.lower()`: lowercases every character of
the string (character by character, as `str.lower` does on the ASCII
platform names involved here). -/
def py_lower (s : String) : String :=
  ⟨s.data.map Char.toLower⟩

/-- The platform-dependent ping count flag (src/ding.py:45):
`"-n" if platform.system().lower() == "windows" else "-c"`. -/
def ping_param (platformSystem : String) : String :=
  if py_lower platformSystem == "windows" then "-n" else "-c"

/-- The argument list handed to `subprocess.call` (src/ding.py:46):
`["ping", param, "1", host]` — the literal `"1"` is the value of the count
flag (one echo request); no further argument is passed. -/
def ping_command (platformSystem host : String) : List String :=
  ["ping", ping_param platformSystem, "1", host]

/-- Embedding of `is_host_reachable` (src/ding.py:43-53): one blocking
`subprocess.call`
of the ping command; the result is the comparison of the exit status with 0,
and a log line is printed when it is false.  `subprocess.call` returns the
exit status for every outcome of the spawned process, so the function is
total. -/
def is_host_reachable (env : Env) (host : String) : Bool × List Effect :=
  let command := ping_command env.platformSystem host
  let result := env.pingExit command == 0
  (result,
   if result then
     [.pingCall command]
   else
     [.pingCall command,
      .printLine ("host=" ++ host ++ " was not reachable...")])

/-- Embedding of `is_host_resolvable` (src/ding.py:56-68): calls
`dns.resolver.resolve(host)` inside a `try` whose only handlers are
`except NXDOMAIN` and `except NoNameservers` (each logging and returning
`False`); a valid answer returns `True`; every other exception of the
resolver library — lifetime timeout, `NoAnswer`, anything else — escapes to
the caller. -/
def is_host_resolvable (env : Env) (host : String) :
    Except PyExn Bool × List Effect :=
  match env.dnsResolve host with
  | .answer => (.ok true, [.dnsQuery host])
  | .nxdomain =>
      (.ok false,
       [.dnsQuery host,
        .printLine ("nameserver claims that host=" ++ host ++ " does not exist")])
  | .noNameservers =>
      (.ok false,
       [.dnsQuery host,
        .printLine ("all nameservers failed to answer for host=" ++ host)])
  | .timeout => (.error .dnsTimeout, [.dnsQuery host])
  | .noAnswer => (.error .dnsNoAnswer, [.dnsQuery host])
  | .otherError => (.error .dnsOtherError, [.dnsQuery host])

/-- The slice of a `dnspython` `Resolver` object the script uses: its
`nameservers` attribute. -/
structure ResolverState where
  nameservers : List String
  deriving DecidableEq, Repr

/-- The runtime value held by the `default_resolver` field of a
`DingResult`: initially the `Resolver` object; after one `__str__` call, the
object's attribute dictionary (see `ding_str`). -/
inductive ResolverField where
  | obj (r : ResolverState)       -- the Resolver instance itself
  | attrDict (r : ResolverState)  -- resolver.__dict__, a plain dict
  deriving DecidableEq, Repr

/-- Modelled from the spec: `get_default_resolver` is imported from the
external `dnspython` library, whose code is not under this repository's
sources.  Per spec section 4.4 (`SystemResolvers()`) it returns the
configured nameserver addresses in configured order and fails with
`NoResolverConfiguredError` when the list is empty. -/
def get_default_resolver (env : Env) :
    Except PyExn ResolverState × List Effect :=
  match env.resolverNameservers with
  | [] => (.error .noResolverConfigured, [.resolverConfigRead])
  | ns => (.ok { nameservers := ns }, [.resolverConfigRead])

/-- A condition that terminates the process from inside module import. -/
inductive Fatal where
  | sysExit (msg : String)  -- sys.exit(msg): msg to stderr, exit status 1
  | uncaught (e : PyExn)    -- an uncaught exception: traceback, nonzero exit
  deriving DecidableEq, Repr

/-- The three class-level field defaults of `DingResult`
(src/ding.py:74-76), as cached after the `class` statement has executed. -/
structure ClassDefaults where
  interface_name : String
  default_gateway : String
  default_resolver : ResolverState
  deriving DecidableEq, Repr

/-- Evaluation of the `class DingResult` statement (src/ding.py:71-81) at
module import time: each field default expression is evaluated exactly once,
in field order — `get_default_route_interface_name()`,
`get_default_gateway()`, `get_default_resolver()` — and a `sys.exit` or an
exception in any of them aborts the import (and hence the process) at that
point, before any instance exists. -/
def defineDingResultClass (env : Env) :
    Except Fatal ClassDefaults × List Effect :=
  match get_default_route_interface_name env with
  | (.error m, t1) => (.error (.sysExit m), t1)
  | (.ok iface, t1) =>
    match get_default_gateway env with
    | (.error e, t2) => (.error (.uncaught e), t1 ++ t2)
    | (.ok gw, t2) =>
      match get_default_resolver env with
      | (.error e, t3) => (.error (.uncaught e), t1 ++ t2 ++ t3)
      | (.ok rs, t3) => (.ok ⟨iface, gw, rs⟩, t1 ++ t2 ++ t3)

/-- The field state of one `DingResult` instance (src/ding.py:71-81). -/
structure DingResult where
  interface_name : String
  default_gateway : String
  default_resolver : ResolverField
  default_gateway_reachable : Bool
  google_reachable : Bool
  default_resolver_reachable : Bool
  google_resolvable : Bool
  good : Bool
  deriving DecidableEq, Repr

/-- Embedding of `DingResult.__post_init__` (src/ding.py:83-97), applied to
the freshly
initialised instance: runs the four checks in order — gateway ping,
`8.8.8.8` ping, ping of `self.default_resolver.nameservers[0]`, DNS
resolution of `google.com` — then sets `good` to Python's `all` over the
literal four-element list.  `nameservers[0]` on an empty list raises
`IndexError`; an exception escaping `is_host_resolvable` escapes the
constructor. -/
def post_init (env : Env) (r : DingResult) :
    Except PyExn DingResult × List Effect :=
  let c1 := is_host_reachable env r.default_gateway
  let c2 := is_host_reachable env "8.8.8.8"
  match r.default_resolver with
  | .attrDict _ => (.error .attributeError, c1.2 ++ c2.2)
  | .obj rs =>
    match rs.nameservers with
    | [] => (.error .indexError, c1.2 ++ c2.2)
    | ns0 :: _ =>
      let c3 := is_host_reachable env ns0
      let c4 := is_host_resolvable env "google.com"
      match c4.1 with
      | .error e => (.error e, c1.2 ++ c2.2 ++ c3.2 ++ c4.2)
      | .ok b4 =>
          (.ok { r with
                  default_gateway_reachable := c1.1
                  google_reachable := c2.1
                  default_resolver_reachable := c3.1
                  google_resolvable := b4
                  good := [c1.1, c2.1, c3.1, b4].all id },
           c1.2 ++ c2.2 ++ c3.2 ++ c4.2)

/-- One evaluation of `DingResult()` (src/ding.py:107): every field is
initialised from its class-level default — the three discovery values cached
at class definition, the five booleans from `field(default=False)` — and
then `__post_init__` runs.  No discovery expression is re-evaluated here. -/
def constructDingResult (env : Env) (d : ClassDefaults) :
    Except PyExn DingResult × List Effect :=
  post_init env
    { interface_name := d.interface_name
      default_gateway := d.default_gateway
      default_resolver := .obj d.default_resolver
      default_gateway_reachable := false
      google_reachable := false
      default_resolver_reachable := false
      google_resolvable := false
      good := false }

/-- Python's `repr` of a boolean. -/
def boolText : Bool → String
  | true => "True"
  | false => "False"

/-- A rendering of the resolver attribute dictionary. -/
def resolverDictText (rs : ResolverState) : String :=
  "nameservers: [" ++ String.intercalate ", " rs.nameservers ++ "]"

/-- The `pformat` rendering of the instance dictionary: every field of the
report appears in the text. -/
def pformatDing (r : DingResult) : String :=
  "interface_name: " ++ r.interface_name ++
  ", default_gateway: " ++ r.default_gateway ++
  ", default_resolver: " ++
    (match r.default_resolver with
     | .obj rs => "Resolver(" ++ resolverDictText rs ++ ")"
     | .attrDict rs => resolverDictText rs) ++
  ", default_gateway_reachable: " ++ boolText r.default_gateway_reachable ++
  ", google_reachable: " ++ boolText r.google_reachable ++
  ", default_resolver_reachable: " ++ boolText r.default_resolver_reachable ++
  ", google_resolvable: " ++ boolText r.google_resolvable ++
  ", good: " ++ boolText r.good

/-- Embedding of `DingResult.__str__` (src/ding.py:99-102): binds
`d = self.__dict__`
WITHOUT copying, so `d` aliases the instance's own attribute dictionary;
then `d['default_resolver'] = self.default_resolver.__dict__` replaces the
field's `Resolver` object by the object's attribute dictionary — mutating
the instance — and `pformat(d)` renders the mutated dictionary.  The result
is (rendered text, the instance as the call leaves it).  When the field
already holds the attribute dictionary (after a previous `__str__` call) the
access `self.default_resolver.__dict__` raises `AttributeError`, a plain
dict having no `__dict__` attribute. -/
def ding_str (r : DingResult) : Except PyExn (String × DingResult) :=
  match r.default_resolver with
  | .attrDict _ => .error .attributeError
  | .obj rs =>
      let mutated := { r with default_resolver := .attrDict rs }
      .ok (pformatDing mutated, mutated)

/-- The process exit status of a run. -/
inductive ExitStatus where
  | success                   -- normal return: exit code 0
  | failureMsg (msg : String) -- sys.exit(msg): msg to stderr, exit code 1
  | crashed (e : PyExn)       -- an uncaught exception: traceback, exit code 1
  deriving DecidableEq, Repr

/-- The standard-output lines of an effect trace. -/
def printsOf (t : List Effect) : List String :=
  t.filterMap fun e =>
    match e with
    | .printLine s => some s
    | _ => none

/-- Embedding of `execute` (src/ding.py:105-113), given the class-level
defaults already
evaluated at import: constructs the single `DingResult`; when `good` is
false it prints the result and calls `sys.exit("DOWN")`, otherwise it prints
the result and then `"UP"`.  Returns the run's standard-output lines paired
with the process exit status. -/
def execute (env : Env) (d : ClassDefaults) : List String × ExitStatus :=
  match constructDingResult env d with
  | (.error e, tr) => (printsOf tr, .crashed e)
  | (.ok r, tr) =>
      if !r.good then
        match ding_str r with
        | .error e => (printsOf tr, .crashed e)
        | .ok (s, _) => (printsOf tr ++ [s], .failureMsg "DOWN")
      else
        match ding_str r with
        | .error e => (printsOf tr, .crashed e)
        | .ok (s, _) => (printsOf tr ++ [s, "UP"], .success)

/-- The whole process (`python3 ding.py`): module import — the class
definition with its three discovery defaults — followed by `execute()`. -/
def runProcess (env : Env) : List String × ExitStatus :=
  match defineDingResultClass env with
  | (.error (.sysExit m), t) => (printsOf t, .failureMsg m)
  | (.error (.uncaught e), t) => (printsOf t, .crashed e)
  | (.ok d, t) =>
      let (out, st) := execute env d
      (printsOf t ++ out, st)

/-- The effects of the three discovery lookups. -/
def isDiscovery : Effect → Bool
  | .gatewaysLookup => true
  | .resolverConfigRead => true
  | _ => false

/-- The effects of the four reachability / resolvability checks. -/
def isCheck : Effect → Bool
  | .pingCall _ => true
  | .dnsQuery _ => true
  | _ => false

/-- Following the spec's words (section 6, "1-second-equivalent wait
budget"): an invocation of the ping utility carries an explicit wait budget
when its argument list passes one of the utility's wait / deadline flags —
`-W` (per-reply wait, POSIX iputils) or `-w` (deadline on POSIX; per-reply
wait in milliseconds on Windows). -/
def specifiesWaitBudget (args : List String) : Bool :=
  args.any fun a => a == "-W" || a == "-w"

/-- The wait / deadline flags of the ping utility, following the spec's
words: `-W` (per-reply wait, POSIX iputils) and `-w` (deadline on POSIX;
per-reply wait in milliseconds on Windows). -/
def waitBudgetFlags : List String := ["-W", "-w"]

/-- A concrete environment for evaluation: POSIX platform, every ping
answered, every DNS query answered, a default route via `eth0` and one
configured resolver. -/
def envAllUp : Env :=
  { platformSystem := "Linux"
    pingExit := fun _ => 0
    gateways := { defaultInet := some ("192.168.1.1", "eth0") }
    resolverNameservers := ["192.168.1.53"]
    dnsResolve := fun _ => .answer
    netIfStatsText := "eth0: up" }

/-- Like `envAllUp` except that every DNS query times out at transport level. -/
def envDnsTimeout : Env :=
  { envAllUp with dnsResolve := fun _ => .timeout }

/-- Like `envAllUp` except that there is no IPv4 default route. -/
def envNoRoute : Env :=
  { envAllUp with gateways := { defaultInet := none } }

/-- Like `envAllUp` except that the system resolver configuration is empty. -/
def envEmptyResolvers : Env :=
  { envAllUp with resolverNameservers := [] }

/-- Like `envAllUp` except that pings of the gateway address go unanswered
(ping exits with status 1). -/
def envGatewayDown : Env :=
  { envAllUp with pingExit := fun cmd => if cmd.contains "192.168.1.1" then 1 else 0 }

/-- The class-level defaults `defineDingResultClass` produces on `envAllUp`. -/
def defaultsAllUp : ClassDefaults :=
  { interface_name := "eth0"
    default_gateway := "192.168.1.1"
    default_resolver := { nameservers := ["192.168.1.53"] } }

/-- The report `DingResult()` constructs on `envAllUp`. -/
def resultAllUp : DingResult :=
  { interface_name := "eth0"
    default_gateway := "192.168.1.1"
    default_resolver := .obj { nameservers := ["192.168.1.53"] }
    default_gateway_reachable := true
    google_reachable := true
    default_resolver_reachable := true
    google_resolvable := true
    good := true }

/-- The record `resultAllUp` as `__str__` leaves it: the `default_resolver`
field now
holds the resolver's attribute dictionary instead of the `Resolver` object. -/
def mutatedAllUp : DingResult :=
  { resultAllUp with default_resolver := .attrDict { nameservers := ["192.168.1.53"] } }

/-- Like `envAllUp` except that pings of the gateway address fail with exit
status 2 (the status the ping utility uses for errors such as name
resolution failure) rather than 1 (no reply). -/
def envGatewayDown2 : Env :=
  { envAllUp with pingExit := fun cmd => if cmd.contains "192.168.1.1" then 2 else 0 }

/- ===================== Helper lemmas ===================== -/

/-- The boolean a reachability check returns is the comparison of the ping
exit status with zero. -/
theorem is_host_reachable_fst (env : Env) (host : String) :
    (is_host_reachable env host).1 =
      (env.pingExit (ping_command env.platformSystem host) == 0) := rfl

/-- The trace of a reachability check. -/
theorem is_host_reachable_snd (env : Env) (host : String) :
    (is_host_reachable env host).2 =
      (if env.pingExit (ping_command env.platformSystem host) == 0 then
        [Effect.pingCall (ping_command env.platformSystem host)]
       else
        [Effect.pingCall (ping_command env.platformSystem host),
         Effect.printLine ("host=" ++ host ++ " was not reachable...")]) := rfl

/-- Effect counts of one reachability check: one check effect, one ping
invocation, no discovery effect. -/
theorem reachable_trace_counts (env : Env) (host : String) :
    (is_host_reachable env host).2.countP (fun e => isCheck e) = 1 ∧
    (is_host_reachable env host).2.countP (fun e => isDiscovery e) = 0 ∧
    (is_host_reachable env host).2.countP
        (fun e => match e with | .pingCall _ => true | _ => false) = 1 := by
  rw [is_host_reachable_snd]
  split <;> exact ⟨rfl, rfl, rfl⟩

/-- Effect counts of one resolvability check: one check effect, no
discovery effect. -/
theorem resolvable_trace_counts (env : Env) (host : String) :
    (is_host_resolvable env host).2.countP (fun e => isCheck e) = 1 ∧
    (is_host_resolvable env host).2.countP (fun e => isDiscovery e) = 0 := by
  unfold is_host_resolvable
  cases henv : env.dnsResolve host <;> exact ⟨rfl, rfl⟩

/-- Inversion of a successful construction: the cached resolver list is
nonempty, the DNS check returned without an exception, and the record and
trace are exactly as `__post_init__` computes them. -/
theorem constructDingResult_ok_inv (env : Env) (d : ClassDefaults) (r : DingResult)
    (h : (constructDingResult env d).1 = .ok r) :
    ∃ ns0 rest b4,
      d.default_resolver.nameservers = ns0 :: rest ∧
      (is_host_resolvable env "google.com").1 = .ok b4 ∧
      r = { interface_name := d.interface_name
            default_gateway := d.default_gateway
            default_resolver := .obj d.default_resolver
            default_gateway_reachable := (is_host_reachable env d.default_gateway).1
            google_reachable := (is_host_reachable env "8.8.8.8").1
            default_resolver_reachable := (is_host_reachable env ns0).1
            google_resolvable := b4
            good := [(is_host_reachable env d.default_gateway).1,
                     (is_host_reachable env "8.8.8.8").1,
                     (is_host_reachable env ns0).1, b4].all id } ∧
      (constructDingResult env d).2 =
        (is_host_reachable env d.default_gateway).2 ++
        (is_host_reachable env "8.8.8.8").2 ++
        (is_host_reachable env ns0).2 ++
        (is_host_resolvable env "google.com").2 := by
  have h2 := h
  unfold constructDingResult post_init at h2
  dsimp only at h2
  rcases hns : d.default_resolver.nameservers with _ | ⟨ns0, rest⟩
  · rw [hns] at h2
    simp at h2
  · rw [hns] at h2
    dsimp only at h2
    rcases hc4 : (is_host_resolvable env "google.com").1 with e | b4
    · rw [hc4] at h2
      simp at h2
    · rw [hc4] at h2
      dsimp only at h2
      injection h2 with h3
      refine ⟨ns0, rest, b4, rfl, rfl, h3.symm, ?_⟩
      unfold constructDingResult post_init
      dsimp only
      rw [hns]
      dsimp only
      rw [hc4]

/-- Inversion of a successful class definition: all three lookups came back,
so the import trace is exactly the two route-table reads followed by the
resolver-configuration read. -/
theorem defineDingResultClass_ok_inv (env : Env) (d0 : ClassDefaults)
    (hi : (defineDingResultClass env).1 = .ok d0) :
    (defineDingResultClass env).2 =
      [.gatewaysLookup] ++ [.gatewaysLookup] ++ [.resolverConfigRead] := by
  unfold defineDingResultClass get_default_route_interface_name
    get_default_gateway get_default_resolver at hi ⊢
  rcases hg : env.gateways.defaultInet with _ | ⟨addr, iface⟩
  · rw [hg] at hi
    simp at hi
  · rw [hg] at hi
    dsimp only at hi ⊢
    rcases hr : env.resolverNameservers with _ | ⟨a, l⟩
    · rw [hr] at hi
    · rfl

/- ===================== Claim theorems ===================== -/

/-- C1: for every environment and every cached set of class defaults, when
`DingResult()` returns a report, its `good` field equals the conjunction of
its four boolean check fields — true exactly when all four are true. -/
theorem result_good_iff_all_checks (env : Env) (d : ClassDefaults) (r : DingResult)
    (h : (constructDingResult env d).1 = .ok r) :
    r.good = (r.default_gateway_reachable && r.google_reachable &&
              r.default_resolver_reachable && r.google_resolvable) := by
  obtain ⟨ns0, rest, b4, hns, hc4, hr, -⟩ := constructDingResult_ok_inv env d r h
  subst hr
  dsimp only
  cases (is_host_reachable env d.default_gateway).1 <;>
    cases (is_host_reachable env "8.8.8.8").1 <;>
      cases (is_host_reachable env ns0).1 <;>
        cases b4 <;> rfl

/-- C1 witness: on a concrete all-up environment the constructed report has
`good` equal to the conjunction of its four check fields. -/
theorem result_good_iff_all_checks_witness :
    resultAllUp.good = (resultAllUp.default_gateway_reachable &&
      resultAllUp.google_reachable && resultAllUp.default_resolver_reachable &&
      resultAllUp.google_resolvable) :=
  result_good_iff_all_checks envAllUp defaultsAllUp resultAllUp rfl

/-- C3 counterexample: when the DNS query fails at transport level with a
lifetime timeout — an outcome other than a valid answer, NXDOMAIN, or
NoNameservers — `is_host_resolvable` does not return `false`: the exception
escapes to the caller, refuting "degrades any other transport-level failure
to false as well; it never raises an error to its caller". -/
theorem resolvable_raises_on_timeout :
    (is_host_resolvable envDnsTimeout "google.com").1 = .error .dnsTimeout := rfl

/-- C3 amended: `is_host_resolvable` returns true on a valid answer, false
on an authoritative NXDOMAIN, and false when all configured nameservers fail
to answer; but any other outcome of the resolver call — lifetime timeout,
NoAnswer, or any other resolver exception — propagates to the caller as an
exception instead of degrading to false. -/
theorem is_host_resolvable_amended (env : Env) (host : String) :
    (env.dnsResolve host = .answer → (is_host_resolvable env host).1 = .ok true) ∧
    (env.dnsResolve host = .nxdomain → (is_host_resolvable env host).1 = .ok false) ∧
    (env.dnsResolve host = .noNameservers →
       (is_host_resolvable env host).1 = .ok false) ∧
    (env.dnsResolve host = .timeout →
       (is_host_resolvable env host).1 = .error .dnsTimeout) ∧
    (env.dnsResolve host = .noAnswer →
       (is_host_resolvable env host).1 = .error .dnsNoAnswer) ∧
    (env.dnsResolve host = .otherError →
       (is_host_resolvable env host).1 = .error .dnsOtherError) := by
  unfold is_host_resolvable
  cases henv : env.dnsResolve host <;> simp [henv]

/-- C3 amended witness: on a concrete environment whose resolver answers,
the check returns true. -/
theorem is_host_resolvable_amended_witness :
    (is_host_resolvable envAllUp "google.com").1 = .ok true :=
  (is_host_resolvable_amended envAllUp "google.com").1 rfl

/-- C7: `is_host_reachable` is a total boolean function of its environment
and host — its result type carries no exception, mirroring that
`subprocess.call` returns the spawned process's exit status for every
outcome of the ping rather than raising — and it returns true when the ping
exits with status 0 (a reply arrived in time) and false when the ping exits
nonzero (unreachable or non-existent host). -/
theorem is_host_reachable_never_raises (env : Env) (host : String) :
    ((is_host_reachable env host).1 = true ∨ (is_host_reachable env host).1 = false) ∧
    (env.pingExit (ping_command env.platformSystem host) = 0 →
       (is_host_reachable env host).1 = true) ∧
    (env.pingExit (ping_command env.platformSystem host) ≠ 0 →
       (is_host_reachable env host).1 = false) := by
  refine ⟨?_, ?_, ?_⟩
  · cases h : (is_host_reachable env host).1
    · exact Or.inr rfl
    · exact Or.inl rfl
  · intro hp
    rw [is_host_reachable_fst, hp]
    rfl
  · intro hp
    rw [is_host_reachable_fst]
    simp [hp]

/-- C7 witness: on a concrete environment where ping answers, the loopback
host is reported reachable. -/
theorem is_host_reachable_never_raises_witness :
    (is_host_reachable envAllUp "127.0.0.1").1 = true :=
  (is_host_reachable_never_raises envAllUp "127.0.0.1").2.1 rfl

/-- C10: the reachability boolean is true exactly when the spawned ping
process exits with status 0, and any two environments in which the ping
exits nonzero — whatever the nonzero status, so whatever the ping-level
failure kind — yield the same boolean, false: the failure kinds are
indistinguishable in the report. -/
theorem reachable_iff_ping_exit_zero (env envB : Env) (host : String) :
    ((is_host_reachable env host).1 = true ↔
       env.pingExit (ping_command env.platformSystem host) = 0) ∧
    (env.pingExit (ping_command env.platformSystem host) ≠ 0 →
     envB.pingExit (ping_command envB.platformSystem host) ≠ 0 →
     (is_host_reachable env host).1 = false ∧
     (is_host_reachable env host).1 = (is_host_reachable envB host).1) := by
  constructor
  · rw [is_host_reachable_fst]
    exact beq_iff_eq
  · intro h hB
    rw [is_host_reachable_fst, is_host_reachable_fst]
    simp [h, hB]

/-- C2: whenever construction succeeds, `execute` prints the rendered report
on standard output in both outcomes (after the checks' own log lines) and
then terminates with the failure status carrying the message "DOWN" when the
verdict is false, or prints "UP" and terminates with the success status when
the verdict is true. -/
theorem execute_report_and_verdict (env : Env) (d : ClassDefaults)
    (r : DingResult) (rendered : String) (r1 : DingResult)
    (h : (constructDingResult env d).1 = .ok r)
    (hs : ding_str r = .ok (rendered, r1)) :
    (r.good = false →
       execute env d =
         (printsOf (constructDingResult env d).2 ++ [rendered],
          .failureMsg "DOWN")) ∧
    (r.good = true →
       execute env d =
         (printsOf (constructDingResult env d).2 ++ [rendered, "UP"],
          .success)) := by
  unfold execute
  rcases hE : constructDingResult env d with ⟨res, tr⟩
  rw [hE] at h
  dsimp only at h ⊢
  subst h
  refine ⟨?_, ?_⟩ <;> intro hg <;> simp [hg, hs]

/-- C2 witness: on the concrete all-up environment the run exits with the
success status. -/
theorem execute_report_and_verdict_witness :
    execute envAllUp defaultsAllUp =
      (printsOf (constructDingResult envAllUp defaultsAllUp).2 ++
        [pformatDing mutatedAllUp, "UP"], .success) :=
  (execute_report_and_verdict envAllUp defaultsAllUp resultAllUp
    (pformatDing mutatedAllUp) mutatedAllUp rfl rfl).2 rfl

/-- C4 (resolver reader modelled from the spec, section 4.4): when the
configured resolver list is empty, the resolver-configuration read performed
at class definition fails with `NoResolverConfiguredError`; the failure is
fatal for the whole run — the process ends with an error status carrying
that exception — and it happens before any check result is recorded: the trace
of the import contains no ping or DNS effect, and no report is constructed. -/
theorem empty_resolver_config_fatal (env : Env) (gw iface : String)
    (hg : env.gateways.defaultInet = some (gw, iface))
    (hr : env.resolverNameservers = []) :
    (defineDingResultClass env).1 = .error (.uncaught .noResolverConfigured) ∧
    (runProcess env).2 = .crashed .noResolverConfigured ∧
    (defineDingResultClass env).2.countP (fun e => isCheck e) = 0 := by
  have hfull : defineDingResultClass env =
      (.error (.uncaught .noResolverConfigured),
        [.gatewaysLookup] ++ [.gatewaysLookup] ++ [.resolverConfigRead]) := by
    unfold defineDingResultClass get_default_route_interface_name
      get_default_gateway get_default_resolver
    rw [hg, hr]
  refine ⟨?_, ?_, ?_⟩
  · rw [hfull]
  · unfold runProcess
    rw [hfull]
  · rw [hfull]
    rfl

/-- C4 witness: on the concrete environment with an empty resolver list the
whole run crashes with `NoResolverConfiguredError`. -/
theorem empty_resolver_config_fatal_witness :
    (runProcess envEmptyResolvers).2 = .crashed .noResolverConfigured :=
  (empty_resolver_config_fatal envEmptyResolvers "192.168.1.1" "eth0" rfl rfl).2.1

/-- C5 counterexample: on a concrete environment with no IPv4 default
route, `get_default_gateway` does not fail the way
`get_default_route_interface_name` does: it raises an uncaught `KeyError`
and its trace contains no interface-statistics dump, while the interface
lookup's failure trace does contain the dump — refuting the claim that both
terminate "after first surfacing the host's interface statistics". -/
theorem default_gateway_fails_without_stats_dump :
    (get_default_gateway envNoRoute).1 = .error .keyError ∧
    Effect.statsDump ∉ (get_default_gateway envNoRoute).2 ∧
    Effect.statsDump ∈ (get_default_route_interface_name envNoRoute).2 := by
  refine ⟨rfl, ?_, ?_⟩ <;> decide

/-- C5 amended: when no IPv4 default route exists,
`get_default_route_interface_name` prints diagnostics, surfaces the
interface statistics and terminates the run via
`sys.exit("No default gateway!")`; `get_default_gateway`, by contrast, fails
with an uncaught `KeyError` from its bare dictionary subscript, with no
diagnostic printing and no statistics dump. -/
theorem no_default_route_amended (env : Env)
    (h : env.gateways.defaultInet = none) :
    ((get_default_route_interface_name env).1 = .error "No default gateway!" ∧
     Effect.statsDump ∈ (get_default_route_interface_name env).2) ∧
    ((get_default_gateway env).1 = .error .keyError ∧
     Effect.statsDump ∉ (get_default_gateway env).2) := by
  unfold get_default_route_interface_name get_default_gateway
  rw [h]
  refine ⟨⟨rfl, ?_⟩, rfl, ?_⟩ <;> decide

/-- C5 amended witness: on the concrete no-route environment the interface
lookup terminates by `sys.exit` with the fatal message. -/
theorem no_default_route_amended_witness :
    (get_default_route_interface_name envNoRoute).1 =
      .error "No default gateway!" :=
  ((no_default_route_amended envNoRoute rfl).1).1

/-- C6 counterexample: on the concrete all-up environment, the trace of one
`DingResult()` construction contains zero discovery effects — no route-table
read and no resolver-configuration read — while containing the four check
effects; the three discovery effects occur in the class-definition
(module-import) trace instead.  Constructing a report therefore performs no fresh
discovery lookups, refuting the claim. -/
theorem construction_performs_no_discovery :
    (constructDingResult envAllUp defaultsAllUp).2.countP
        (fun e => isDiscovery e) = 0 ∧
    (constructDingResult envAllUp defaultsAllUp).2.countP
        (fun e => isCheck e) = 4 ∧
    (defineDingResultClass envAllUp).2.countP (fun e => isDiscovery e) = 3 := by
  refine ⟨rfl, rfl, rfl⟩

/-- C6 amended: the report is constructed once per run and the four checks
do execute during each construction, but the three discovery lookups do not:
they execute once, when the `class` statement is evaluated at module import,
and construction reuses the cached defaults — the construction trace
contains no discovery effect, while the import trace contains exactly the
three discovery effects. -/
theorem discovery_once_at_import (env : Env) (d d0 : ClassDefaults)
    (r : DingResult)
    (hc : (constructDingResult env d).1 = .ok r)
    (hi : (defineDingResultClass env).1 = .ok d0) :
    (constructDingResult env d).2.countP (fun e => isDiscovery e) = 0 ∧
    (constructDingResult env d).2.countP (fun e => isCheck e) = 4 ∧
    (defineDingResultClass env).2.countP (fun e => isDiscovery e) = 3 := by
  obtain ⟨ns0, rest, b4, hns, hc4, hrec, htr⟩ :=
    constructDingResult_ok_inv env d r hc
  have himp := defineDingResultClass_ok_inv env d0 hi
  rw [htr, himp]
  simp only [List.countP_append]
  have g1 := reachable_trace_counts env d.default_gateway
  have g2 := reachable_trace_counts env "8.8.8.8"
  have g3 := reachable_trace_counts env ns0
  have g4 := resolvable_trace_counts env "google.com"
  refine ⟨?_, ?_, rfl⟩
  · rw [g1.2.1, g2.2.1, g3.2.1, g4.2]
  · rw [g1.1, g2.1, g3.1, g4.1]

/-- C6 amended witness: on the concrete all-up environment one construction
runs the four checks (and, per the theorem, no discovery). -/
theorem discovery_once_at_import_witness :
    (constructDingResult envAllUp defaultsAllUp).2.countP
        (fun e => isCheck e) = 4 :=
  (discovery_once_at_import envAllUp defaultsAllUp defaultsAllUp resultAllUp
    rfl rfl).2.1

/-- C8 counterexample: the invocation the reachability check builds carries
no wait-budget argument: on a POSIX-like platform the full argument list is
`["ping", "-c", "1", "8.8.8.8"]` — the literal `"1"` is the value of the
count flag (the number of echo requests), not a duration — and no wait /
deadline flag (`-W` / `-w`) appears on either platform, so the call is not
made with a 1-second-equivalent wait budget set by this code. -/
theorem ping_command_carries_no_wait_budget :
    ping_command "Linux" "8.8.8.8" = ["ping", "-c", "1", "8.8.8.8"] ∧
    specifiesWaitBudget (ping_command "Linux" "8.8.8.8") = false ∧
    specifiesWaitBudget (ping_command "Windows" "8.8.8.8") = false := by
  refine ⟨rfl, rfl, rfl⟩

/-- C8 amended: every reachability check performs exactly one ping
invocation per call — a single-shot blocking `subprocess.call` whose
argument list is exactly `["ping", flag, "1", host]`, requesting exactly one
echo via the count flag, `-n` on Windows-like platforms and `-c` otherwise;
the one flag passed is never a wait-budget flag, so the code sets no
one-second wait budget and the wait time is the ping utility's default. -/
theorem ping_invocation_amended (env : Env) (host : String) :
    (is_host_reachable env host).2.countP
        (fun e => match e with | .pingCall _ => true | _ => false) = 1 ∧
    Effect.pingCall (ping_command env.platformSystem host) ∈
      (is_host_reachable env host).2 ∧
    ping_command env.platformSystem host =
      ["ping", ping_param env.platformSystem, "1", host] ∧
    (py_lower env.platformSystem = "windows" →
       ping_param env.platformSystem = "-n") ∧
    (py_lower env.platformSystem ≠ "windows" →
       ping_param env.platformSystem = "-c") ∧
    ping_param env.platformSystem ∉ waitBudgetFlags := by
  refine ⟨(reachable_trace_counts env host).2.2, ?_, rfl, ?_, ?_, ?_⟩
  · rw [is_host_reachable_snd]
    split
    · exact List.mem_singleton.mpr rfl
    · exact List.mem_cons_self _ _
  · intro hw
    unfold ping_param
    simp [hw]
  · intro hw
    unfold ping_param
    simp [beq_iff_eq, hw]
  · unfold ping_param
    split <;> decide

/-- C8 amended witness: on the POSIX-like concrete environment the count
flag selected is `-c`. -/
theorem ping_invocation_amended_witness :
    ping_param envAllUp.platformSystem = "-c" :=
  (ping_invocation_amended envAllUp "8.8.8.8").2.2.2.2.1 (by decide)

/-- C9 (code bug): rendering the report mutates it.  `__str__` binds the
instance dictionary without copying and replaces its `default_resolver`
entry by the resolver's attribute dictionary, so after one rendering the
field no longer holds the `Resolver` object the constructor stored — and a
second rendering of the same instance raises `AttributeError`.  Evaluated on
the concrete all-up report. -/
theorem ding_str_mutates_report :
    ding_str resultAllUp = .ok (pformatDing mutatedAllUp, mutatedAllUp) ∧
    mutatedAllUp ≠ resultAllUp ∧
    ding_str mutatedAllUp = .error .attributeError := by
  refine ⟨rfl, by decide, rfl⟩

/-- C10 witness: two environments in which the gateway ping fails with
different nonzero exit statuses (1 and 2) produce the same boolean. -/
theorem reachable_iff_ping_exit_zero_witness :
    (is_host_reachable envGatewayDown "192.168.1.1").1 = false ∧
    (is_host_reachable envGatewayDown "192.168.1.1").1 =
      (is_host_reachable envGatewayDown2 "192.168.1.1").1 := by
  have h1 : envGatewayDown.pingExit
      (ping_command envGatewayDown.platformSystem "192.168.1.1") = 1 := rfl
  have h2 : envGatewayDown2.pingExit
      (ping_command envGatewayDown2.platformSystem "192.168.1.1") = 2 := rfl
  exact (reachable_iff_ping_exit_zero envGatewayDown envGatewayDown2 "192.168.1.1").2
    (by rw [h1]; decide) (by rw [h2]; decide)

end Ding
